import Mathlib

/-!
Verification of the outbound media-relay state machine of `src/outbound.js`.

This file is a shallow embedding of the per-call relay in `src/outbound.js`:
the session state held in the closure of the `/outbound-media-stream`
connection handler (lines 160-167), the Twilio-side and ElevenLabs-side
event handlers, the `setupElevenLabs` routine, and the two `setTimeout`
actions (the 3000 ms reconnection timer and the 2000 ms grace-close timer).

Conventions of the embedding:
* JavaScript string/optional truthiness (`if (streamSid)`,
  `customParameters?.name || "Cliente"`) is modelled by `jsTruthy` and
  `jsOrStr`: both `undefined`/`null` (here `none`) and the empty string are
  falsy.
* Each `ws.send` / `elevenLabsWs.send` / `.close()` / `setTimeout` performed
  by a handler is recorded as an element of a `List Effect`, in the order the
  source performs them.  Console logging is not modelled.
* The asynchronous `getSignedUrl` call inside `setupElevenLabs` is abstracted
  by a Boolean `fetchOk`: `true` means the awaited fetch returned a signed
  URL and `new WebSocket(signedUrl)` was reached; `false` means the fetch (or
  anything before the socket construction) threw, landing in the `catch`
  block of lines 331-333.
* Node's `Buffer.from(s, "base64").toString("base64")` round trip (line
  363-366) is modelled by `b64Reencode`, built from a canonical base64
  encoder/decoder over byte lists; the model agrees with Node on all
  canonical (encoder-produced) base64 strings, which is the domain the
  specification's round-trip property quantifies over.
-/

set_option maxHeartbeats 1000000

/-- JavaScript truthiness of a possibly-absent string: `undefined`, `null`
and `""` are falsy. -/
def jsTruthy : Option String → Bool
  | none => false
  | some s => s != ""

/-- JavaScript `a || b` for a possibly-absent string `a` and a string
default `b`. -/
def jsOrStr (a : Option String) (b : String) : String :=
  match a with
  | some s => if s = "" then b else s
  | none => b

/-- The custom parameters attached to the call by the TwiML `<Parameter>`
elements (src/outbound.js lines 139-145) and delivered back inside the
Twilio `start` event.  Every field may be absent. -/
structure CustomParameters where
  phone_number : Option String := none
  name : Option String := none
  organization : Option String := none
  credit_amount : Option String := none
  client_id : Option String := none
  prompt : Option String := none
  first_message : Option String := none
deriving DecidableEq

/-- Ready state of a WebSocket handle as far as the source consults it:
`noSocket` models the initial `elevenLabsWs = null`, `connecting` a socket
constructed but not yet open, `opened` `WebSocket.OPEN`, and `closed` a
socket whose close event has fired. -/
inductive WsState
  | noSocket
  | connecting
  | opened
  | closed
deriving DecidableEq

/-- The per-call mutable variables of the connection handler
(src/outbound.js lines 162-167), plus the readiness of the Twilio socket
itself (`ws.readyState === WebSocket.OPEN`, consulted by the grace-close
timer at line 317).  The declared-but-never-used `audioPacketCount`
(line 166) is omitted. -/
structure Session where
  streamSid : Option String := none
  callSid : Option String := none
  customParameters : Option CustomParameters := none
  isCallActive : Bool := false
  elevenState : WsState := WsState.noSocket
  twilioOpen : Bool := true
deriving DecidableEq

/-- A frame sent to the Twilio leg over `ws.send` (always JSON with an
`event` field and the session's `streamSid`). -/
inductive TwilioFrame
  | media (streamSid : String) (payload : String)
  | clear (streamSid : String)
  | stop (streamSid : String)
deriving DecidableEq

/-- The `dynamic_variables` object of the initiation message
(src/outbound.js lines 184-190). -/
structure DynamicVariables where
  client_id : String
  phone_number : String
  name : String
  organization : String
  credit_amount : String
deriving DecidableEq

/-- A message sent to the ElevenLabs leg over `elevenLabsWs.send`.  The
`initiation` constructor models the `conversation_initiation_client_data`
object of lines 182-191; its second component records the (absent)
`conversation_config_override` key: the source object carries only the
dynamic variables, so the handler always produces `none` there. -/
inductive AgentMessage
  | initiation (dynamic_variables : DynamicVariables)
      (conversation_config_override : Option String)
  | userAudioChunk (user_audio_chunk : String)
  | pong (event_id : String)
deriving DecidableEq

/-- One observable action performed by a handler, in source order. -/
inductive Effect
  | sendTwilio (frame : TwilioFrame)
  | sendEleven (msg : AgentMessage)
  | closeEleven (code : Nat) (reason : String)
  | closeTwilio
  | scheduleReconnect (delayMs : Nat)
  | scheduleTwilioGraceClose (delayMs : Nat)
  | fetchSignedUrl
  | openAgentSocket
deriving DecidableEq

/-! Base64: the Node `Buffer` round trip, modelled on the canonical domain. -/

/-- The base64 alphabet in index order. -/
def b64Alphabet : List Char :=
  "ABCDEFGHIJKLMNOPQRSTUVWXYZabcdefghijklmnopqrstuvwxyz0123456789+/".toList

/-- Character of a six-bit value. -/
def sextetChar (n : Nat) : Char := b64Alphabet.getD n 'A'

/-- Six-bit value of an alphabet character, `none` for a character outside
the alphabet. -/
def charSextet (c : Char) : Option Nat := b64Alphabet.indexOf? c

/-- Canonical base64 encoding of a byte list, with `=` padding. -/
def encodeB64 : List Nat → List Char
  | [] => []
  | [b1] => [sextetChar (b1 / 4), sextetChar (b1 % 4 * 16), '=', '=']
  | [b1, b2] =>
      [sextetChar (b1 / 4), sextetChar (b1 % 4 * 16 + b2 / 16),
       sextetChar (b2 % 16 * 4), '=']
  | b1 :: b2 :: b3 :: rest =>
      sextetChar (b1 / 4) :: sextetChar (b1 % 4 * 16 + b2 / 16) ::
      sextetChar (b2 % 16 * 4 + b3 / 64) :: sextetChar (b3 % 64) ::
      encodeB64 rest

/-- Canonical base64 decoding: four characters at a time, padding only in a
final block, zero unused bits.  Inverse of `encodeB64` on its range. -/
def decodeB64 : List Char → Option (List Nat)
  | [] => some []
  | c1 :: c2 :: c3 :: c4 :: rest =>
      match charSextet c1, charSextet c2 with
      | some s1, some s2 =>
          if c3 = '=' then
            if c4 = '=' ∧ rest = [] ∧ s2 % 16 = 0 then
              some [s1 * 4 + s2 / 16]
            else none
          else
            match charSextet c3 with
            | some s3 =>
                if c4 = '=' then
                  if rest = [] ∧ s3 % 4 = 0 then
                    some [s1 * 4 + s2 / 16, s2 % 16 * 16 + s3 / 4]
                  else none
                else
                  match charSextet c4, decodeB64 rest with
                  | some s4, some tail =>
                      some ((s1 * 4 + s2 / 16) :: (s2 % 16 * 16 + s3 / 4) ::
                            (s3 % 4 * 64 + s4) :: tail)
                  | _, _ => none
            | none => none
      | _, _ => none
  | _ => none

/-- Model of `Buffer.from(p, "base64").toString("base64")`
(src/outbound.js lines 363-366).  Faithful to Node on every canonical
base64 string (the range of `encodeB64`); Node's lenient salvaging of
non-canonical input is outside the modelled domain. -/
def b64Reencode (p : String) : String :=
  match decodeB64 p.data with
  | some bytes => String.mk (encodeB64 bytes)
  | none => ""

/-! Handlers. -/

/-- Dynamic variables computed by the `open` handler (src/outbound.js
lines 184-190), with the JS `||` default chain. -/
def mkDynamicVariables (s : Session) : DynamicVariables :=
  { client_id := jsOrStr (s.customParameters.bind (·.client_id))
      (jsOrStr s.callSid "unknown_call")
  , phone_number := jsOrStr (s.customParameters.bind (·.phone_number))
      "unknown_number"
  , name := jsOrStr (s.customParameters.bind (·.name)) "Cliente"
  , organization := jsOrStr (s.customParameters.bind (·.organization))
      "Datágora"
  , credit_amount := jsOrStr (s.customParameters.bind (·.credit_amount))
      "50000" }

/-- The `elevenLabsWs.on("open", ...)` handler (src/outbound.js
lines 178-199): the socket is now open and exactly one initiation message
is sent, carrying only dynamic variables. -/
def handleElevenOpen (s : Session) : Session × List Effect :=
  ({ s with elevenState := WsState.opened },
   [Effect.sendEleven (AgentMessage.initiation (mkDynamicVariables s) none)])

/-- Payload shape `message.audio` of an agent `audio` message. -/
structure AudioPayload where
  chunk : Option String := none
deriving DecidableEq

/-- Payload shape `message.audio_event` of an agent `audio` message. -/
structure AudioEventPayload where
  audio_base_64 : Option String := none
deriving DecidableEq

/-- Payload `message.ping_event` of an agent `ping` message. -/
structure PingEvent where
  event_id : Option String := none
deriving DecidableEq

/-- A parsed inbound agent message, by its `type` field (`malformed` is a
frame on which `JSON.parse` threw, caught at lines 288-290). -/
inductive ElevenMessage
  | initiationMetadata
  | audio (audio : Option AudioPayload) (audio_event : Option AudioEventPayload)
  | interruption
  | ping (ping_event : Option PingEvent)
  | agentResponse
  | userTranscript
  | other (t : String)
  | malformed
deriving DecidableEq

/-- The `elevenLabsWs.on("message", ...)` handler (src/outbound.js
lines 201-291).  No branch mutates the session variables, so the handler
returns only its effects. -/
def handleElevenMessage (s : Session) : ElevenMessage → List Effect
  | ElevenMessage.initiationMetadata => []
  | ElevenMessage.audio oa oe =>
      if jsTruthy s.streamSid then
        if jsTruthy (oa.bind (·.chunk)) then
          [Effect.sendTwilio (TwilioFrame.media (s.streamSid.getD "")
            ((oa.bind (·.chunk)).getD ""))]
        else if jsTruthy (oe.bind (·.audio_base_64)) then
          [Effect.sendTwilio (TwilioFrame.media (s.streamSid.getD "")
            ((oe.bind (·.audio_base_64)).getD ""))]
        else []
      else []
  | ElevenMessage.interruption =>
      if jsTruthy s.streamSid then
        [Effect.sendTwilio (TwilioFrame.clear (s.streamSid.getD ""))]
      else []
  | ElevenMessage.ping pe =>
      if jsTruthy (pe.bind (·.event_id)) then
        [Effect.sendEleven (AgentMessage.pong ((pe.bind (·.event_id)).getD ""))]
      else []
  | ElevenMessage.agentResponse => []
  | ElevenMessage.userTranscript => []
  | ElevenMessage.other _ => []
  | ElevenMessage.malformed => []

/-- The `elevenLabsWs.on("error", ...)` handler (src/outbound.js
lines 293-297): unconditionally schedules `setupElevenLabs` after 3000 ms. -/
def handleElevenError (s : Session) : Session × List Effect :=
  (s, [Effect.scheduleReconnect 3000])

/-- The `elevenLabsWs.on("close", ...)` handler (src/outbound.js
lines 299-330).  The first branch (lines 303-321) sends a `stop` frame,
clears `isCallActive` and schedules the 2000 ms grace close; the
reconnection check (line 324) then reads the already-mutated flag. -/
def handleElevenClose (s : Session) (code : Nat) : Session × List Effect :=
  let s0 := { s with elevenState := WsState.closed }
  let r1 : Session × List Effect :=
    if s0.isCallActive && jsTruthy s0.streamSid then
      ({ s0 with isCallActive := false },
       [Effect.sendTwilio (TwilioFrame.stop (s0.streamSid.getD "")),
        Effect.scheduleTwilioGraceClose 2000])
    else (s0, [])
  if code != 1000 && r1.1.isCallActive then
    (r1.1, r1.2 ++ [Effect.scheduleReconnect 3000])
  else r1

/-- The payload of a Twilio `start` event; each field may be missing from
the JSON. -/
structure StartPayload where
  streamSid : Option String := none
  callSid : Option String := none
  customParameters : Option CustomParameters := none
deriving DecidableEq

/-- A parsed inbound Twilio frame, by its `event` field (`malformed` is a
frame on which `JSON.parse` threw, caught at lines 389-391). -/
inductive TwilioMessage
  | start (p : StartPayload)
  | media (payload : String)
  | stop
  | other (event : String)
  | malformed
deriving DecidableEq

/-- The `ws.on("message", ...)` handler (src/outbound.js lines 340-392). -/
def handleTwilioMessage (s : Session) : TwilioMessage → Session × List Effect
  | TwilioMessage.start p =>
      ({ s with streamSid := p.streamSid, callSid := p.callSid,
                customParameters := p.customParameters, isCallActive := true },
       [])
  | TwilioMessage.media payload =>
      if s.elevenState = WsState.opened then
        (s, [Effect.sendEleven (AgentMessage.userAudioChunk (b64Reencode payload))])
      else (s, [])
  | TwilioMessage.stop =>
      ({ s with isCallActive := false },
       if s.elevenState = WsState.opened then
         [Effect.closeEleven 1000 "Call ended normally"]
       else [])
  | TwilioMessage.other _ => (s, [])
  | TwilioMessage.malformed => (s, [])

/-- The `ws.on("close", ...)` handler (src/outbound.js lines 395-402). -/
def handleTwilioClose (s : Session) : Session × List Effect :=
  ({ s with isCallActive := false, twilioOpen := false },
   if s.elevenState = WsState.opened then
     [Effect.closeEleven 1000 "Twilio client disconnected"]
   else [])

/-- One run of the body of `setupElevenLabs` (src/outbound.js
lines 173-334).  No branch consults `isCallActive`.  On a successful fetch
the handle variable is overwritten with a fresh connecting socket (the
previous handle is discarded without being closed); on a failed fetch the
`catch` block (lines 331-333) only logs, scheduling nothing. -/
def setupElevenLabs (fetchOk : Bool) (s : Session) : Session × List Effect :=
  if fetchOk then
    ({ s with elevenState := WsState.connecting },
     [Effect.fetchSignedUrl, Effect.openAgentSocket])
  else (s, [Effect.fetchSignedUrl])

/-- The callback of the 2000 ms grace timer (src/outbound.js
lines 316-320): close the Twilio socket if it is still open. -/
def fireGraceClose (s : Session) : List Effect :=
  if s.twilioOpen then [Effect.closeTwilio] else []

/-! Event-driven driver.

The JavaScript event loop delivers handler invocations one at a time; the
driver below tracks, besides the session, how many reconnection and
grace-close timers are pending, so temporal properties about stale timers
can be stated.  A timer-expiry event on a world with no pending timer of
that kind is a no-op. -/

/-- Recognizer for the reconnection-scheduling effect. -/
def isScheduleReconnect : Effect → Bool
  | Effect.scheduleReconnect _ => true
  | _ => false

/-- Recognizer for the grace-close-scheduling effect. -/
def isScheduleGrace : Effect → Bool
  | Effect.scheduleTwilioGraceClose _ => true
  | _ => false

/-- Recognizer for frames sent toward the Twilio leg. -/
def isSendTwilio : Effect → Bool
  | Effect.sendTwilio _ => true
  | _ => false

/-- A session together with the multiset of pending timers. -/
structure World where
  session : Session
  pendingReconnects : Nat := 0
  pendingGraceCloses : Nat := 0
deriving DecidableEq

/-- An I/O event delivered to the connection handler. -/
inductive Ev
  | twilioMsg (m : TwilioMessage)
  | twilioClose
  | elevenOpen
  | elevenMsg (m : ElevenMessage)
  | elevenError
  | elevenClose (code : Nat)
  | reconnectTimerFires (fetchOk : Bool)
  | graceTimerFires
deriving DecidableEq

/-- Fold a handler result into the world, counting newly scheduled timers. -/
def record (w : World) (s : Session) (es : List Effect) : World × List Effect :=
  ({ session := s,
     pendingReconnects := w.pendingReconnects + es.countP isScheduleReconnect,
     pendingGraceCloses := w.pendingGraceCloses + es.countP isScheduleGrace },
   es)

/-- One step of the relay: deliver one event to the matching handler. -/
def stepW (w : World) : Ev → World × List Effect
  | Ev.twilioMsg m =>
      let r := handleTwilioMessage w.session m
      record w r.1 r.2
  | Ev.twilioClose =>
      let r := handleTwilioClose w.session
      record w r.1 r.2
  | Ev.elevenOpen =>
      let r := handleElevenOpen w.session
      record w r.1 r.2
  | Ev.elevenMsg m => record w w.session (handleElevenMessage w.session m)
  | Ev.elevenError =>
      let r := handleElevenError w.session
      record w r.1 r.2
  | Ev.elevenClose code =>
      let r := handleElevenClose w.session code
      record w r.1 r.2
  | Ev.reconnectTimerFires fetchOk =>
      if w.pendingReconnects = 0 then (w, [])
      else
        let r := setupElevenLabs fetchOk w.session
        record { w with pendingReconnects := w.pendingReconnects - 1 } r.1 r.2
  | Ev.graceTimerFires =>
      if w.pendingGraceCloses = 0 then (w, [])
      else
        record { w with pendingGraceCloses := w.pendingGraceCloses - 1 }
          w.session (fireGraceClose w.session)

/-- A freshly accepted `/outbound-media-stream` connection, before any event. -/
def initialSession : Session := {}

/-- The world right after the handler's own `setupElevenLabs()` call at
line 337 succeeded in constructing the first socket. -/
def initialWorld : World := { session := (setupElevenLabs true initialSession).1 }

/-- The `start` payload of the end-to-end scenario of the specification:
`streamSid="ST1"`, `callSid="CA1"`, `customParameters={name:"Ana"}`. -/
def anaStart : StartPayload :=
  { streamSid := some "ST1", callSid := some "CA1",
    customParameters := some { name := some "Ana" } }

/-- A mid-call session: stream started with id `"ST1"`, call active, agent
socket open. -/
def liveSessionST1 : Session :=
  { streamSid := some "ST1", callSid := some "CA1", isCallActive := true,
    elevenState := WsState.opened }

/-! Base64 round-trip lemmas. -/

/-- Decoding the character of a six-bit value recovers the value. -/
theorem charSextet_sextetChar : ∀ n < 64, charSextet (sextetChar n) = some n := by
  decide

/-- No alphabet character is the padding character. -/
theorem sextetChar_ne_pad : ∀ n < 64, sextetChar n ≠ '=' := by
  decide

/-- Canonical base64 decoding is a left inverse of encoding on byte lists. -/
theorem decodeB64_encodeB64 : ∀ bs : List Nat, (∀ b ∈ bs, b < 256) →
    decodeB64 (encodeB64 bs) = some bs
  | [], _ => rfl
  | [b1], h => by
      have hb1 : b1 < 256 := h b1 (by simp)
      have h1 : b1 / 4 < 64 := by omega
      have h2 : b1 % 4 * 16 < 64 := by omega
      have h3 : b1 % 4 * 16 % 16 = 0 := by omega
      simp only [encodeB64, decodeB64, charSextet_sextetChar _ h1,
        charSextet_sextetChar _ h2, h3, if_pos rfl, and_true, and_self, if_true]
      simp only [Option.some.injEq, List.cons.injEq, and_true]
      omega
  | [b1, b2], h => by
      have hb1 : b1 < 256 := h b1 (by simp)
      have hb2 : b2 < 256 := h b2 (by simp)
      have h1 : b1 / 4 < 64 := by omega
      have h2 : b1 % 4 * 16 + b2 / 16 < 64 := by omega
      have h3 : b2 % 16 * 4 < 64 := by omega
      have h3' : b2 % 16 * 4 % 4 = 0 := by omega
      simp only [encodeB64, decodeB64, charSextet_sextetChar _ h1,
        charSextet_sextetChar _ h2, charSextet_sextetChar _ h3,
        if_neg (sextetChar_ne_pad _ h3), if_pos rfl, h3', and_true, and_self,
        if_true]
      simp only [Option.some.injEq, List.cons.injEq, and_true]
      omega
  | [b1, b2, b3], h => by
      have ih : decodeB64 (encodeB64 ([] : List Nat)) = some [] := rfl
      have hb1 : b1 < 256 := h b1 (by simp)
      have hb2 : b2 < 256 := h b2 (by simp)
      have hb3 : b3 < 256 := h b3 (by simp)
      have h1 : b1 / 4 < 64 := by omega
      have h2 : b1 % 4 * 16 + b2 / 16 < 64 := by omega
      have h3 : b2 % 16 * 4 + b3 / 64 < 64 := by omega
      have h4 : b3 % 64 < 64 := by omega
      simp only [encodeB64, decodeB64, charSextet_sextetChar _ h1,
        charSextet_sextetChar _ h2, charSextet_sextetChar _ h3,
        charSextet_sextetChar _ h4, if_neg (sextetChar_ne_pad _ h3),
        if_neg (sextetChar_ne_pad _ h4), ih]
      simp only [Option.some.injEq, List.cons.injEq, and_true, true_and, and_self]
      omega
  | b1 :: b2 :: b3 :: b4 :: rest, h => by
      have ih := decodeB64_encodeB64 (b4 :: rest)
        (fun b hb => h b (by simp at hb ⊢; tauto))
      have hb1 : b1 < 256 := h b1 (by simp)
      have hb2 : b2 < 256 := h b2 (by simp)
      have hb3 : b3 < 256 := h b3 (by simp)
      have h1 : b1 / 4 < 64 := by omega
      have h2 : b1 % 4 * 16 + b2 / 16 < 64 := by omega
      have h3 : b2 % 16 * 4 + b3 / 64 < 64 := by omega
      have h4 : b3 % 64 < 64 := by omega
      simp only [encodeB64, decodeB64, charSextet_sextetChar _ h1,
        charSextet_sextetChar _ h2, charSextet_sextetChar _ h3,
        charSextet_sextetChar _ h4, if_neg (sextetChar_ne_pad _ h3),
        if_neg (sextetChar_ne_pad _ h4), ih]
      simp only [Option.some.injEq, List.cons.injEq, and_true, true_and, and_self]
      omega

/-! Claim theorems. -/

/-- C2: while the session's stream id is still unset (absent or empty), no
agent message handled by the ElevenLabs message handler produces a frame
toward the telephony leg, and the `audio` and `interruption` cases produce
no effect at all — the frames are dropped, not buffered. -/
theorem c2_no_frames_before_stream_id (s : Session) (m : ElevenMessage)
    (h : jsTruthy s.streamSid = false) :
    (∀ e ∈ handleElevenMessage s m, isSendTwilio e = false) ∧
    (∀ oa oe, handleElevenMessage s (ElevenMessage.audio oa oe) = []) ∧
    handleElevenMessage s ElevenMessage.interruption = [] := by
  refine ⟨?_, ?_, ?_⟩
  · intro e he
    cases m with
    | audio oa oe => simp [handleElevenMessage, h] at he
    | interruption => simp [handleElevenMessage, h] at he
    | ping pe =>
        by_cases hq : jsTruthy (pe.bind (·.event_id))
        · simp [handleElevenMessage, hq] at he
          subst he; rfl
        · simp [handleElevenMessage, hq] at he
    | initiationMetadata => simp [handleElevenMessage] at he
    | agentResponse => simp [handleElevenMessage] at he
    | userTranscript => simp [handleElevenMessage] at he
    | other t => simp [handleElevenMessage] at he
    | malformed => simp [handleElevenMessage] at he
  · intro oa oe
    simp [handleElevenMessage, h]
  · simp [handleElevenMessage, h]

/-- Witness for C2: a fresh session has no stream id, and a well-formed
audio chunk arriving then is dropped with no effect. -/
theorem c2_witness :
    jsTruthy (({} : Session)).streamSid = false ∧
    handleElevenMessage {} (ElevenMessage.audio (some { chunk := some "QUJD" }) none) = [] ∧
    handleElevenMessage {} ElevenMessage.interruption = [] :=
  ⟨rfl,
   (c2_no_frames_before_stream_id {} ElevenMessage.interruption rfl).2.1
     (some { chunk := some "QUJD" }) none,
   (c2_no_frames_before_stream_id {} ElevenMessage.interruption rfl).2.2⟩

/-- C5: when the agent connection closes with the normal code 1000 while the
session is active, no reconnection is scheduled; if the stream id is known a
`stop` frame is sent to the telephony leg followed by the 2000 ms grace
timer, the session becomes inactive, and the fired grace timer closes the
telephony connection when it is still open. -/
theorem c5_agent_normal_close (s : Session) (hactive : s.isCallActive = true) :
    (handleElevenClose s 1000).2.countP isScheduleReconnect = 0 ∧
    (jsTruthy s.streamSid = true →
      (handleElevenClose s 1000).2 =
        [Effect.sendTwilio (TwilioFrame.stop (s.streamSid.getD "")),
         Effect.scheduleTwilioGraceClose 2000] ∧
      (handleElevenClose s 1000).1.isCallActive = false) ∧
    (s.twilioOpen = true →
      fireGraceClose (handleElevenClose s 1000).1 = [Effect.closeTwilio]) := by
  by_cases hsid : jsTruthy s.streamSid
  · simp [handleElevenClose, hactive, hsid, fireGraceClose,
      List.countP_cons, List.countP_nil, isScheduleReconnect]
  · simp [handleElevenClose, hactive, hsid, fireGraceClose]

/-- Witness for C5 at an active session with stream id `"ST1"`. -/
theorem c5_witness :
    (handleElevenClose liveSessionST1 1000).2.countP isScheduleReconnect = 0 ∧
    (handleElevenClose liveSessionST1 1000).2 =
      [Effect.sendTwilio (TwilioFrame.stop "ST1"),
       Effect.scheduleTwilioGraceClose 2000] :=
  ⟨(c5_agent_normal_close liveSessionST1 rfl).1,
   ((c5_agent_normal_close liveSessionST1 rfl).2.1 rfl).1⟩

/-- C6: for a well-formed agent `audio` message in either payload shape,
with the stream id set, the emitted telephony media frame carries exactly
the received base64 payload and is addressed to the session's stream id. -/
theorem c6_audio_payload_preserved (s : Session) (sid p : String)
    (hs : s.streamSid = some sid) (hsid : sid ≠ "") (hp : p ≠ "") :
    (∀ oe, handleElevenMessage s (ElevenMessage.audio (some { chunk := some p }) oe) =
        [Effect.sendTwilio (TwilioFrame.media sid p)]) ∧
    (∀ oa, jsTruthy (oa.bind (·.chunk)) = false →
        handleElevenMessage s
            (ElevenMessage.audio oa (some { audio_base_64 := some p })) =
          [Effect.sendTwilio (TwilioFrame.media sid p)]) := by
  have hst : jsTruthy (some sid) = true := by simp [jsTruthy, hsid]
  have hpt : jsTruthy (some p) = true := by simp [jsTruthy, hp]
  constructor
  · intro oe
    simp [handleElevenMessage, hs, hst, hpt]
  · intro oa hoa
    simp [handleElevenMessage, hs, hst, hoa, hpt]

/-- Witness for C6 at stream id `"ST1"` and payload `"QUJD"`. -/
theorem c6_witness :
    handleElevenMessage { streamSid := some "ST1" }
        (ElevenMessage.audio (some { chunk := some "QUJD" }) none) =
      [Effect.sendTwilio (TwilioFrame.media "ST1" "QUJD")] ∧
    handleElevenMessage { streamSid := some "ST1" }
        (ElevenMessage.audio none (some { audio_base_64 := some "QUJD" })) =
      [Effect.sendTwilio (TwilioFrame.media "ST1" "QUJD")] :=
  ⟨(c6_audio_payload_preserved { streamSid := some "ST1" } "ST1" "QUJD" rfl
      (by decide) (by decide)).1 none,
   (c6_audio_payload_preserved { streamSid := some "ST1" } "ST1" "QUJD" rfl
      (by decide) (by decide)).2 none rfl⟩

/-- C7: an agent `ping` message carrying an event identifier is answered by
exactly one `pong` message on the agent connection, echoing that
identifier. -/
theorem c7_ping_pong_echo (s : Session) (eid : String) (h : eid ≠ "") :
    handleElevenMessage s (ElevenMessage.ping (some { event_id := some eid })) =
      [Effect.sendEleven (AgentMessage.pong eid)] := by
  simp [handleElevenMessage, jsTruthy, h]

/-- Witness for C7 at `event_id = "abc"`. -/
theorem c7_witness :
    handleElevenMessage {} (ElevenMessage.ping (some { event_id := some "abc" })) =
      [Effect.sendEleven (AgentMessage.pong "abc")] :=
  c7_ping_pong_echo {} "abc" (by decide)

/-- C10: an agent `ping` message without a `ping_event.event_id` field
produces no outgoing message at all (and no close), for every session
state. -/
theorem c10_ping_without_event_id (s : Session) :
    handleElevenMessage s (ElevenMessage.ping (some { event_id := none })) = [] ∧
    handleElevenMessage s (ElevenMessage.ping none) = [] := by
  constructor <;> simp [handleElevenMessage, jsTruthy]

/-- C8: the agent-connection open handler sends exactly one initialization
message, carrying dynamic variables only (no prompt or greeting override);
missing custom parameters fall back to the documented defaults, with
`client_id` falling back to the call id and then to `"unknown_call"`; and
in the end-to-end scenario a start event with `customParameters={name:"Ana"}`
yields `dynamic_variables.name = "Ana"` with the organization default
applied. -/
theorem c8_initial_config (s : Session) (cid : String)
    (h1 : s.customParameters = none) (h2 : s.callSid = some cid)
    (h3 : cid ≠ "") :
    (handleElevenOpen s).2 =
      [Effect.sendEleven (AgentMessage.initiation (mkDynamicVariables s) none)] ∧
    mkDynamicVariables s =
      { client_id := cid, phone_number := "unknown_number", name := "Cliente",
        organization := "Datágora", credit_amount := "50000" } ∧
    mkDynamicVariables initialSession =
      { client_id := "unknown_call", phone_number := "unknown_number",
        name := "Cliente", organization := "Datágora",
        credit_amount := "50000" } ∧
    (mkDynamicVariables
      ((handleTwilioMessage initialSession (TwilioMessage.start anaStart)).1)).name
        = "Ana" ∧
    (mkDynamicVariables
      ((handleTwilioMessage initialSession (TwilioMessage.start anaStart)).1)).organization
        = "Datágora" := by
  refine ⟨rfl, ?_, by decide, by decide, by decide⟩
  simp [mkDynamicVariables, h1, h2, jsOrStr, h3]

/-- Witness for C8 at a session whose only populated variable source is the
call id `"CA1"`. -/
theorem c8_witness :
    mkDynamicVariables { callSid := some "CA1" } =
      { client_id := "CA1", phone_number := "unknown_number",
        name := "Cliente", organization := "Datágora",
        credit_amount := "50000" } :=
  (c8_initial_config { callSid := some "CA1" } "CA1" rfl rfl (by decide)).2.1

/-- C9: a telephony media frame is forwarded to the agent leg only while the
agent connection is open (otherwise silently dropped with no state change),
and the decode-then-reencode performed on the base64 payload is an identity
round trip: on any valid (canonically encoded) base64 string the wrapped
`user_audio_chunk` equals the received payload. -/
theorem c9_media_roundtrip_and_gating (s : Session) (bs : List Nat) (p : String)
    (hp : p = String.mk (encodeB64 bs)) (hb : ∀ b ∈ bs, b < 256) :
    b64Reencode p = p ∧
    (s.elevenState = WsState.opened →
      handleTwilioMessage s (TwilioMessage.media p) =
        (s, [Effect.sendEleven (AgentMessage.userAudioChunk p)])) ∧
    (s.elevenState ≠ WsState.opened →
      handleTwilioMessage s (TwilioMessage.media p) = (s, [])) := by
  have hrt : b64Reencode p = p := by
    subst hp
    simp [b64Reencode, decodeB64_encodeB64 bs hb]
  refine ⟨hrt, ?_, ?_⟩ <;> intro h <;>
    simp [handleTwilioMessage, h, hrt]

/-- Witness for C9 at the payload `"TWFu"` (the canonical encoding of the
bytes of `"Man"`), with the agent socket open. -/
theorem c9_witness :
    b64Reencode "TWFu" = "TWFu" ∧
    handleTwilioMessage { elevenState := WsState.opened }
        (TwilioMessage.media "TWFu") =
      ({ elevenState := WsState.opened },
        [Effect.sendEleven (AgentMessage.userAudioChunk "TWFu")]) :=
  ⟨(c9_media_roundtrip_and_gating { elevenState := WsState.opened }
      [77, 97, 110] "TWFu" (by decide) (by decide)).1,
   (c9_media_roundtrip_and_gating { elevenState := WsState.opened }
      [77, 97, 110] "TWFu" (by decide) (by decide)).2.1 rfl⟩

/-- C1 counterexample: a concrete session trace in which `isCallActive` has
become false (Twilio `stop` after a normal start) while a reconnection
timer, scheduled by the agent error handler during the active phase, is
still pending; when that timer fires, the session is inactive and yet the
fired action fetches a new signed endpoint and opens a new agent socket —
it is not a no-op. -/
theorem c1_counterexample :
    (let w1 := (stepW initialWorld Ev.elevenOpen).1
     let w2 := (stepW w1 (Ev.twilioMsg (TwilioMessage.start anaStart))).1
     let w3 := (stepW w2 Ev.elevenError).1
     let w4 := (stepW w3 (Ev.twilioMsg TwilioMessage.stop)).1
     w4.session.isCallActive = false ∧ w4.pendingReconnects = 1 ∧
     (stepW w4 (Ev.reconnectTimerFires true)).2 =
       [Effect.fetchSignedUrl, Effect.openAgentSocket] ∧
     (stepW w4 (Ev.reconnectTimerFires true)).1.session.elevenState =
       WsState.connecting) := by
  decide

/-- C1 amended: the active flag is consulted only where reconnections are
scheduled (and by the error handler not even there), never by the fired
action: whenever a reconnection timer is pending, its firing runs the full
setup — fetching a new signed endpoint and opening a new agent socket —
regardless of `isCallActive`; and the agent error handler schedules such a
timer unconditionally. -/
theorem c1_amended_reconnect_fire_unconditional (w : World)
    (h : 0 < w.pendingReconnects) :
    (stepW w (Ev.reconnectTimerFires true)).2 =
      [Effect.fetchSignedUrl, Effect.openAgentSocket] ∧
    (stepW w (Ev.reconnectTimerFires true)).1.session.elevenState =
      WsState.connecting ∧
    (handleElevenError w.session).2 = [Effect.scheduleReconnect 3000] := by
  have hne : ¬ w.pendingReconnects = 0 := by omega
  refine ⟨?_, ?_, rfl⟩ <;> simp [stepW, hne, setupElevenLabs, record]

/-- Witness for the amended C1 at an inactive world with one pending
reconnection timer. -/
theorem c1_amended_witness :
    0 < (World.mk { isCallActive := false } 1 0).pendingReconnects ∧
    (stepW (World.mk { isCallActive := false } 1 0)
        (Ev.reconnectTimerFires true)).2 =
      [Effect.fetchSignedUrl, Effect.openAgentSocket] :=
  ⟨by decide,
   (c1_amended_reconnect_fire_unconditional
      (World.mk { isCallActive := false } 1 0) (by decide)).1⟩

/-- C3 counterexample: with the call still active, a failing signed-URL
fetch inside `setupElevenLabs` produces no reconnection scheduling and no
socket opening — the `catch` block only logs, so the failure is abandoned
rather than retried. -/
theorem c3_counterexample :
    (setupElevenLabs false liveSessionST1).2 = [Effect.fetchSignedUrl] ∧
    liveSessionST1.isCallActive = true ∧
    (setupElevenLabs false liveSessionST1).2.countP isScheduleReconnect = 0 ∧
    (setupElevenLabs false liveSessionST1).2.countP
      (fun e => e == Effect.openAgentSocket) = 0 := by
  decide

/-- C3 amended: an agent connection drop signalled through the socket error
event is recovered by a timed (3000 ms) reconnection, but a failure of the
signed-URL fetch (or of anything before the socket construction) inside
`setupElevenLabs` is only logged: the state is unchanged and no retry is
scheduled. -/
theorem c3_amended_fetch_failure_only_logged (s : Session) :
    setupElevenLabs false s = (s, [Effect.fetchSignedUrl]) ∧
    (setupElevenLabs false s).2.countP isScheduleReconnect = 0 ∧
    (handleElevenError s).2 = [Effect.scheduleReconnect 3000] :=
  ⟨rfl, rfl, rfl⟩

/-- C4 counterexample: a session made active by a start event that carried
no `streamSid` (the handler stores `undefined` and still sets the active
flag), followed by an agent error event and then an abnormal close, is left
with two pending reconnection timers; each of the two firings fetches an
endpoint and opens a fresh agent socket, the second while the first
connection attempt is still pending. -/
theorem c4_counterexample :
    (let w1 := (stepW initialWorld Ev.elevenOpen).1
     let w2 := (stepW w1 (Ev.twilioMsg (TwilioMessage.start
       (StartPayload.mk none (some "CA1") none)))).1
     let w3 := (stepW w2 Ev.elevenError).1
     let w4 := (stepW w3 (Ev.elevenClose 1006)).1
     w2.session.isCallActive = true ∧ w4.pendingReconnects = 2 ∧
     (stepW w4 (Ev.reconnectTimerFires true)).2 =
       [Effect.fetchSignedUrl, Effect.openAgentSocket] ∧
     (stepW (stepW w4 (Ev.reconnectTimerFires true)).1
        (Ev.reconnectTimerFires true)).2 =
       [Effect.fetchSignedUrl, Effect.openAgentSocket]) := by
  decide

/-- C4 amended: the code has no guard against overlapping connection
attempts — the error handler always schedules setup and the close handler
schedules it again whenever the close is abnormal and the session still
counts as active, which (because the stop branch runs only when the stream
id is truthy) happens exactly when the stream id is unset; only when the
stream id is set does an error followed by an abnormal close schedule a
single reconnection, because the close handler first marks the session
inactive. -/
theorem c4_amended_single_reconnect_when_stream_set (s : Session) (code : Nat)
    (hsid : jsTruthy s.streamSid = true) :
    (handleElevenClose s code).2.countP isScheduleReconnect = 0 ∧
    ((handleElevenError s).2 ++
      (handleElevenClose (handleElevenError s).1 code).2).countP
        isScheduleReconnect = 1 := by
  have hclose : ∀ s' : Session, jsTruthy s'.streamSid = true →
      (handleElevenClose s' code).2.countP isScheduleReconnect = 0 := by
    intro s' hs'
    by_cases hact : s'.isCallActive <;>
      simp [handleElevenClose, hs', hact, List.countP_cons, List.countP_nil,
        isScheduleReconnect]
  refine ⟨hclose s hsid, ?_⟩
  have herr : (handleElevenError s).1 = s := rfl
  rw [List.countP_append, herr, hclose s hsid]
  rfl

/-- Witness for the amended C4 at the live session with stream id `"ST1"`
and close code 1006. -/
theorem c4_amended_witness :
    (handleElevenClose liveSessionST1 1006).2.countP isScheduleReconnect = 0 ∧
    ((handleElevenError liveSessionST1).2 ++
      (handleElevenClose (handleElevenError liveSessionST1).1 1006).2).countP
        isScheduleReconnect = 1 :=
  c4_amended_single_reconnect_when_stream_set liveSessionST1 1006 (by decide)
